import Mathlib

/-
Verification of the lex-helper intent-dispatch and response-formatting
pipeline.  The definitions below are a shallow embedding of the Python
sources:
  src/lex_helper/channels/channel_formatting.py
  src/lex_helper/channels/lex.py
  src/lex_helper/core/call_handler_for_file.py
  src/lex_helper/core/handler.py
Collaborators of the core that are not part of the sources (the base
channel, `handle_exceptions`, `title_to_snake`, `add_to_list`, and the
module loading machinery) are modelled from the specification; each such
definition carries a doc comment that says so.
-/

/-- A single quote character as a string, used by the Python str/repr model. -/
def squote : String := String.singleton (Char.ofNat 39)

mutual

/-- Model of a Python value as stored in session attributes or a custom
payload content: a string, an integer, a boolean, or a (possibly nested)
dict with string keys. -/
inductive Value where
  | vStr : String → Value
  | vInt : Int → Value
  | vBool : Bool → Value
  | vDict : ValueDict → Value
  deriving DecidableEq

/-- A Python dict with string keys and `Value` values, as an ordered
association sequence (Python dicts preserve insertion order and have
unique keys). -/
inductive ValueDict where
  | nil : ValueDict
  | cons : String → Value → ValueDict → ValueDict
  deriving DecidableEq

end

mutual

/-- Model of Python `str(value)`. -/
def pyStr : Value → String
  | .vStr s => s
  | .vInt n => toString n
  | .vBool b => cond b "True" "False"
  | .vDict es => "\x7b" ++ pyStrEntries es ++ "\x7d"

/-- Model of Python `repr(value)`, used for elements inside containers. -/
def pyRepr : Value → String
  | .vStr s => squote ++ s ++ squote
  | .vInt n => toString n
  | .vBool b => cond b "True" "False"
  | .vDict es => "\x7b" ++ pyStrEntries es ++ "\x7d"

/-- Rendering of the entries of a dict for `pyStr`/`pyRepr`. -/
def pyStrEntries : ValueDict → String
  | .nil => ""
  | .cons k v .nil => squote ++ k ++ squote ++ ": " ++ pyRepr v
  | .cons k v rest => squote ++ k ++ squote ++ ": " ++ pyRepr v ++ ", " ++ pyStrEntries rest

end

/-- Key lookup in a dict, mirroring Python `d[k]` / `k in d`. -/
def ValueDict.lookup : ValueDict → String → Option Value
  | .nil, _ => none
  | .cons k v rest, key => if k == key then some v else rest.lookup key

/-- A button of an image response card (`text` and `value` fields, as used
by `lex.py`). -/
structure Button where
  text : String
  value : String
  deriving DecidableEq

/-- The `imageResponseCard` payload of a `LexImageResponseCard` message:
title, optional subtitle, optional image url and an ordered button list
(fields as accessed in `lex.py` lines 115-122 and
`channel_formatting.py` lines 69-75). -/
structure ImageCardContent where
  title : String
  subtitle : Option String
  imageUrl : Option String
  buttons : List Button
  deriving DecidableEq

/-- The tagged union of message variants flowing through formatting:
`PlainText`/`LexPlainText` (merged: both dispatch to the same formatter in
`channel_formatting.py`), `LexSSML`, `LexImageResponseCard` and
`LexCustomPayload`. -/
inductive LexMessage where
  | plainText : String → LexMessage
  | ssml : String → LexMessage
  | imageCard : ImageCardContent → LexMessage
  | customPayload : Value → LexMessage
  deriving DecidableEq

/-- The slice of `sessionState` the sources read or write: dialog action
type, intent name and state, and the session-attributes mapping. -/
structure SessionState where
  dialogActionType : String
  intentName : String
  intentState : String
  sessionAttributes : ValueDict
  deriving DecidableEq

/-- The slice of a `LexRequest` the sources use: session state and the
request-attributes mapping (string keyed, string valued; the reserved
`callback` key holds an intent name). -/
structure LexRequest where
  sessionState : SessionState
  requestAttributes : List (String × String)
  deriving DecidableEq

/-- A `LexResponse` as produced by intent handlers: session state, request
attributes and the ordered message list. -/
structure LexResponse where
  sessionState : SessionState
  requestAttributes : List (String × String)
  messages : List LexMessage
  deriving DecidableEq

/-- The dumped wire response produced by `format_for_channel`
(`model_dump` of the formatted response). -/
structure FormattedResponse where
  sessionState : SessionState
  requestAttributes : List (String × String)
  messages : List LexMessage
  deriving DecidableEq

/-- The closed set of channels registered in `_get_channel`
(`channel_formatting.py` lines 106-113). -/
inductive Channel where
  | lex
  | sms
  deriving DecidableEq

/-- Model of Python `str.lower()` on the ASCII names the sources use:
lower-case every character. -/
def pyLower (s : String) : String := ⟨s.data.map Char.toLower⟩

/-- Model of Python single-character membership `c in s`. -/
def pyContainsChar (s : String) (c : Char) : Bool := s.data.contains c

/-- The `channels` table of `_get_channel` (`channel_formatting.py`
lines 107-110). -/
def channelsList : List (String × Channel) := [("sms", Channel.sms), ("lex", Channel.lex)]

/-- Embedding of `_get_channel` (`channel_formatting.py` lines 106-113):
lower-case the name, look it up in the channel table, default to the Lex
channel. -/
def _get_channel (channelString : String) : Channel :=
  (channelsList.lookup (pyLower channelString)).getD Channel.lex

/-- Modelled from the spec: the base channel implementation
(`channels/base.py`, not under src/) passes plain-text messages through
unchanged; `LexChannel.format_plain_text` (lex.py lines 75-87) delegates
to it, and spec section 4.1 gives the same pass-through default for every
channel. -/
def channel_format_plain_text (_channel : Channel) (message : LexMessage) : LexMessage :=
  message

/-- Modelled from the spec: the base channel implementation
(`channels/base.py`, not under src/) passes SSML messages through
unchanged; `LexChannel.format_ssml_text` (lex.py lines 89-101) delegates
to it, and spec section 4.1 gives the same pass-through default for every
channel. -/
def channel_format_ssml_text (_channel : Channel) (message : LexMessage) : LexMessage :=
  message

/-- Modelled from the spec: `add_to_list` (`lex_helper/utils/add_to_list.py`,
not under src/) returns the list with the item appended, per the formatter
contract of spec section 4.1 (each source formatter extends
`formatted_messages` by exactly the one message it produced). -/
def add_to_list (lst : List LexMessage) (item : LexMessage) : List LexMessage :=
  lst ++ [item]

/-- Embedding of `_format_plain_text` (`channel_formatting.py`
lines 116-122): append the channel-formatted plain text. -/
def _format_plain_text (message : LexMessage) (channel : Channel)
    (_options_provided : List String) (formatted_messages : List LexMessage) :
    List LexMessage :=
  add_to_list formatted_messages (channel_format_plain_text channel message)

/-- Embedding of `_format_ssml_text` (`channel_formatting.py`
lines 124-130): append the channel-formatted SSML text. -/
def _format_ssml_text (message : LexMessage) (channel : Channel)
    (_options_provided : List String) (formatted_messages : List LexMessage) :
    List LexMessage :=
  add_to_list formatted_messages (channel_format_ssml_text channel message)

/-- Embedding of `_format_image_card` (`channel_formatting.py`
lines 133-139): the image card is appended unchanged; the `channel`
argument is ignored by the source. -/
def _format_image_card (message : LexMessage) (_channel : Channel)
    (_options_provided : List String) (formatted_messages : List LexMessage) :
    List LexMessage :=
  add_to_list formatted_messages message

/-- Error raised by the formatting loop when no formatter is registered
for a message variant (`channel_formatting.py` lines 52-54). -/
inductive FormatError where
  | noFormatterFound
  deriving DecidableEq

/-- Embedding of one iteration of the message loop of `format_for_channel`
(`channel_formatting.py` lines 45-59): dispatch on the message variant via
`content_process_map` (lines 29-34).  The map has entries for
plain text, SSML and image cards only; any other variant (in particular
a custom payload) raises. -/
def processMessage (channel : Channel) (message : LexMessage)
    (options_provided : List String) (formatted_messages : List LexMessage) :
    Except FormatError (List LexMessage) :=
  match message with
  | .plainText c =>
      .ok (_format_plain_text (.plainText c) channel options_provided formatted_messages)
  | .ssml c =>
      .ok (_format_ssml_text (.ssml c) channel options_provided formatted_messages)
  | .imageCard card =>
      .ok (_format_image_card (.imageCard card) channel options_provided formatted_messages)
  | .customPayload _ => .error .noFormatterFound

/-- Embedding of the whole message loop of `format_for_channel`
(`channel_formatting.py` lines 45-59). -/
def processMessages (channel : Channel) :
    List LexMessage → List String → List LexMessage →
    Except FormatError (List LexMessage)
  | [], _, acc => .ok acc
  | message :: rest, opts, acc =>
      match processMessage channel message opts acc with
      | .error e => .error e
      | .ok acc2 => processMessages channel rest opts acc2

/-- Embedding of the single-image-card rewrite of `format_for_channel`
(`channel_formatting.py` lines 64-75): when the formatted list has
exactly one element and it is an image card, prepend a plain-text message
carrying the card title and blank the card title to a single space.
The source condition does not consult the selected channel. -/
def singleCardRewrite (formatted_messages : List LexMessage) : List LexMessage :=
  match formatted_messages with
  | [LexMessage.imageCard card] =>
      [LexMessage.plainText card.title, LexMessage.imageCard { card with title := " " }]
  | msgs => msgs

/-- Model of `json.dumps` on a list of strings, used only on the
options-provided path (`channel_formatting.py` line 79). -/
def jsonDumpsStrings (xs : List String) : String :=
  "[" ++ String.intercalate ", " (xs.map (fun s => "\"" ++ s ++ "\"")) ++ "]"

/-- Assignment of one attribute of the session-attributes mapping
(pydantic field assignment at `channel_formatting.py` line 79): replace
the value when the key exists, append it otherwise. -/
def ValueDict.set : ValueDict → String → Value → ValueDict
  | .nil, key, v => .cons key v .nil
  | .cons k0 v0 rest, key, v =>
      if k0 == key then .cons k0 v rest else .cons k0 v0 (rest.set key v)

/-- Embedding of `_stringify_session_attributes` (`channel_formatting.py`
lines 99-103): every value of the session-attributes mapping of the dumped
response is replaced by its string representation. -/
def _stringify_session_attributes : ValueDict → ValueDict
  | .nil => .nil
  | .cons k v rest => .cons k (.vStr (pyStr v)) (_stringify_session_attributes rest)

/-- Embedding of `format_for_channel` (`channel_formatting.py`
lines 24-96): select the channel, format each message through the
dispatch map, apply the single-image-card rewrite, serialize accumulated
options into the session attributes (no source formatter ever accumulates
any, so the list stays empty), and stringify every session-attribute
value of the dumped response. -/
def format_for_channel (response : LexResponse) (channel_string : String) :
    Except FormatError FormattedResponse :=
  let channel := _get_channel channel_string
  let options_provided : List String := []
  match processMessages channel response.messages options_provided [] with
  | .error e => .error e
  | .ok formatted =>
      let formatted_messages := singleCardRewrite formatted
      let sessionAttributes := response.sessionState.sessionAttributes
      let sessionAttributes :=
        if options_provided.length > 0 then
          sessionAttributes.set "options_provided"
            (.vStr (jsonDumpsStrings options_provided))
        else sessionAttributes
      .ok { sessionState :=
              { response.sessionState with
                sessionAttributes := _stringify_session_attributes sessionAttributes },
            requestAttributes := response.requestAttributes,
            messages := formatted_messages }

/-- Result of a channel-level formatting method: either a message object
or a bare Python string (`LexChannel.format_custom_payload` returns
`str(...)` on the unwrap paths, lex.py lines 139 and 141). -/
inductive ChannelFormatted where
  | msg : LexMessage → ChannelFormatted
  | raw : String → ChannelFormatted
  deriving DecidableEq

namespace LexChannel

/-- Embedding of `LexChannel.format_plain_text` (lex.py lines 75-87):
delegates to the base pass-through. -/
def format_plain_text (message : LexMessage) : LexMessage :=
  channel_format_plain_text Channel.lex message

/-- Embedding of `LexChannel.format_ssml_text` (lex.py lines 89-101):
delegates to the base pass-through. -/
def format_ssml_text (message : LexMessage) : LexMessage :=
  channel_format_ssml_text Channel.lex message

/-- Embedding of `LexChannel.format_image_card` (lex.py lines 103-123):
render the card as plain text made of the title, the subtitle when truthy,
an `Image: <url>` line when truthy, and a `Buttons:` line of
`[<text> -> <value>]` entries joined by single spaces, the parts joined by
newlines. -/
def format_image_card (card : ImageCardContent) : LexMessage :=
  let parts := [card.title]
  let parts :=
    match card.subtitle with
    | some s => if s ≠ "" then parts ++ [s] else parts
    | none => parts
  let parts :=
    match card.imageUrl with
    | some u => if u ≠ "" then parts ++ ["Image: " ++ u] else parts
    | none => parts
  let parts :=
    if card.buttons.isEmpty then parts
    else parts ++
      ["Buttons: " ++ String.intercalate " "
        (card.buttons.map (fun b => "[" ++ b.text ++ " -> " ++ b.value ++ "]"))]
  LexMessage.plainText (String.intercalate "\n" parts)

/-- Embedding of `LexChannel.format_custom_payload` (lex.py
lines 125-143): when the content is a dict holding a `text` key, return
`str` of that value; else when it holds a `message` key, return `str` of
that value; otherwise re-wrap the stringified content as a custom
payload. -/
def format_custom_payload (content : Value) : ChannelFormatted :=
  match content with
  | .vDict es =>
      match es.lookup "text" with
      | some v => .raw (pyStr v)
      | none =>
          match es.lookup "message" with
          | some v => .raw (pyStr v)
          | none => .msg (.customPayload (.vStr (pyStr (Value.vDict es))))
  | c => .msg (.customPayload (.vStr (pyStr c)))

/-- Embedding of `LexChannel.format_message` (lex.py lines 20-52):
dispatch on the message variant; the `Unsupported message type` fallback
of line 46 is unreachable because the variant type is closed. -/
def format_message (message : LexMessage) : ChannelFormatted :=
  match message with
  | .ssml c => .msg (format_ssml_text (.ssml c))
  | .plainText c => .msg (format_plain_text (.plainText c))
  | .imageCard card => .msg (format_image_card card)
  | .customPayload content => format_custom_payload content

end LexChannel

/-- Modelled from the spec: `title_to_snake` (`lex_helper/utils/string.py`,
not under src/) converts a capitalized-words name to its separator form,
e.g. `OrderPizza` to `order_pizza` (spec section 4.3): each upper-case
letter after the first character is replaced by an underscore followed by
its lower-case form, and the first character is lower-cased. -/
def title_to_snake (s : String) : String :=
  match s.toList with
  | [] => ""
  | c :: rest =>
      String.singleton c.toLower ++
        String.join (rest.map (fun d =>
          if d.isUpper then "_" ++ String.singleton d.toLower else String.singleton d))

/-- Embedding of the `file_to_import` computation of
`call_handler_for_file` (call_handler_for_file.py lines 34-39): a name
containing an underscore is lower-cased verbatim, any other name goes
through `title_to_snake`. -/
def file_to_import (intent_name : String) : String :=
  if pyContainsChar intent_name '_' then pyLower intent_name
  else title_to_snake intent_name

/-- Embedding of the module-path computation of `call_handler_for_file`
(call_handler_for_file.py lines 24-26 and 41-43): default the package to
`fulfillment_function` and prefix `<package>.intents.`. -/
def module_to_import (package_name : Option String) (intent_name : String) : String :=
  (package_name.getD "fulfillment_function") ++ ".intents." ++ file_to_import intent_name

/-- Generic apology text of the modelled `handle_exceptions` fallback. -/
def genericErrorMessage : String :=
  "Sorry, an error occurred while processing your request. Please try again."

/-- Modelled from the spec: `handle_exceptions`
(`lex_helper/exceptions/handlers.py`, not under src/) converts an
exception into a well-formed fallback turn response: a closing dialog
action, failed intent state, and one plain-text apology message (the
configured message when given, else a generic one); session and request
attributes of the request are carried through (spec section 7). -/
def handle_exceptions (_exc : String) (lex_request : LexRequest)
    (error_message : Option String) : LexResponse :=
  { sessionState :=
      { lex_request.sessionState with dialogActionType := "Close", intentState := "Failed" },
    requestAttributes := lex_request.requestAttributes,
    messages := [.plainText (error_message.getD genericErrorMessage)] }

/-- Outcome of invoking a resolved intent-handler function: a returned
response or a raised exception. -/
inductive HandlerRun where
  | ok : LexResponse → HandlerRun
  | raises : String → HandlerRun

/-- The import environment of `call_handler_for_file`: importing a module
name either fails (`ImportError`), finds a module without a `handler`
function, or finds a module with one. -/
inductive ModuleLookup where
  | importError
  | moduleWithoutHandler
  | moduleWithHandler : (LexRequest → HandlerRun) → ModuleLookup

/-- The only exception `call_handler_for_file` lets escape. -/
inductive CallError where
  | intentNotFound
  deriving DecidableEq

/-- Embedding of `call_handler_for_file` (call_handler_for_file.py
lines 18-84), parameterized by the import environment `env`:
an `ImportError` becomes `IntentNotFoundError`, which the outer handler
re-raises (lines 49-52 and 77-79); a module without a `handler` function
raises `ValueError` (lines 59-62), which the outermost
`except Exception` converts into `handle_exceptions(e, lex_request)`
(lines 80-84); a handler exception is re-raised at lines 71-75 and then
also converted by the outermost `except Exception`; a handler result is
returned unchanged (lines 66-70). -/
def call_handler_for_file (env : String → ModuleLookup) (intent_name : String)
    (lex_request : LexRequest) (package_name : Option String) :
    Except CallError LexResponse :=
  let file := module_to_import package_name intent_name
  match env file with
  | .importError => .error .intentNotFound
  | .moduleWithoutHandler =>
      .ok (handle_exceptions ("Unable to load handler for " ++ file) lex_request none)
  | .moduleWithHandler handlerFn =>
      match handlerFn lex_request with
      | .ok result => .ok result
      | .raises e => .ok (handle_exceptions e lex_request none)

/-- Outcome of one handler of the `_main_handler` chain: an accepted
response, a decline (`None`), a raised `IntentNotFoundError`, or any
other raised exception. -/
inductive HandlerOutcome where
  | ok : LexResponse → HandlerOutcome
  | declined
  | intentNotFound
  | raises : String → HandlerOutcome

/-- Result of the handler loop of `_main_handler`. -/
inductive ChainResult where
  | found : LexResponse → ChainResult
  | intentNotFound : ChainResult
  | noHandler : ChainResult
  deriving DecidableEq

/-- Embedding of the handler loop of `_main_handler` (handler.py
lines 196-218): handlers run in order; a returned response stops the
loop; `None` tries the next handler; `IntentNotFoundError` is re-raised
immediately (lines 206-208); any other exception is logged and the loop
continues (lines 209-214) — for every handler, the last one included;
when the loop ends without a response, `ValueError` is raised
(lines 216-218), represented as `noHandler`. -/
def runHandlerChain : List (LexRequest → HandlerOutcome) → LexRequest → ChainResult
  | [], _ => .noHandler
  | h :: rest, req =>
      match h req with
      | .ok r => .found r
      | .declined => runHandlerChain rest req
      | .intentNotFound => .intentNotFound
      | .raises _ => runHandlerChain rest req

/-- Removal of one key from a request-attributes mapping (Python
`dict.pop` at handler.py line 238; keys of a dict are unique, so removal
of every matching entry coincides with `pop`). -/
def eraseAttr (attrs : List (String × String)) (key : String) : List (String × String) :=
  attrs.filter (fun kv => kv.1 != key)

/-- The request passed to the callback re-dispatch: the turn request with
session state and request attributes taken from the first response
(handler.py lines 226-227) and the `callback` key removed (line 238; the
request aliases the response attributes, so the pop is visible on the
request). -/
def callbackRequest (lex_payload : LexRequest) (response : LexResponse) : LexRequest :=
  { lex_payload with
    sessionState := response.sessionState,
    requestAttributes := eraseAttr response.requestAttributes "callback" }

/-- Embedding of the callback block of `_main_handler` (handler.py
lines 220-248), parameterized by the intent resolver (the
`call_handler_for_file` invocation of lines 239-241): the payload takes
the response session state and request attributes; when `callback` is
present its key is popped, the resolver runs on the named intent with the
updated payload, the payload session state is replaced by the second
response state, and the second response is returned with the first
response messages prepended to its own; without a callback the response
is returned as is.  The resolver may raise `IntentNotFoundError`, which
is re-raised (handler.py lines 251-253). -/
def applyCallback (resolver : String → LexRequest → Except CallError LexResponse)
    (lex_payload : LexRequest) (response : LexResponse) :
    Except CallError (LexResponse × LexRequest) :=
  let payload1 :=
    { lex_payload with
      sessionState := response.sessionState,
      requestAttributes := response.requestAttributes }
  match response.requestAttributes.lookup "callback" with
  | none => .ok (response, payload1)
  | some callbackName =>
      let payload2 :=
        { payload1 with requestAttributes := eraseAttr response.requestAttributes "callback" }
      match resolver callbackName payload2 with
      | .error e => .error e
      | .ok second =>
          let payload3 := { payload2 with sessionState := second.sessionState }
          .ok ({ second with messages := response.messages ++ second.messages }, payload3)

/-- What `_main_handler` hands to the formatting stage (or lets escape). -/
inductive MainOutcome where
  | response : LexResponse → MainOutcome
  | intentNotFoundRaised : MainOutcome

/-- Embedding of the response-producing part of `_main_handler`
(handler.py lines 170-258): run the handler chain; a re-raised
`IntentNotFoundError` escapes (lines 251-253); a chain that produced no
response raises `ValueError`, which the `except Exception` of lines
254-258 converts through `handle_exceptions`; a found response goes
through the callback block. -/
def _main_handler_response (resolver : String → LexRequest → Except CallError LexResponse)
    (handlers : List (LexRequest → HandlerOutcome)) (lex_payload : LexRequest) :
    MainOutcome :=
  match runHandlerChain handlers lex_payload with
  | .intentNotFound => .intentNotFoundRaised
  | .noHandler =>
      .response (handle_exceptions "Unable to find handler for intent" lex_payload none)
  | .found r =>
      match applyCallback resolver lex_payload r with
      | .error _ => .intentNotFoundRaised
      | .ok (finalResponse, _) => .response finalResponse

/-- An apostrophe as a string, for source text that contains one. -/
def apos : String := String.singleton (Char.ofNat 39)

/-- The default message of `_create_minimal_error_response`
(handler.py line 400). -/
def defaultMinimalErrorMessage : String :=
  "I" ++ apos ++ "m sorry, I encountered an error while processing your request. Please try again."

/-- Embedding of `_create_minimal_error_response` (handler.py
lines 395-426): a static closing response with the `FallbackIntent`
failed intent, empty session attributes and one plain-text message; the
configured error message is used when present (the `get_message` catalog
lookup is external and modelled from the spec as using the configured
string). -/
def _create_minimal_error_response (error_message : Option String) : FormattedResponse :=
  { sessionState :=
      { dialogActionType := "Close", intentName := "FallbackIntent",
        intentState := "Failed", sessionAttributes := .nil },
    requestAttributes := [],
    messages := [.plainText (error_message.getD defaultMinimalErrorMessage)] }

/-- Embedding of the `auto_handle_exceptions` branch of `LexHelper.handler`
(handler.py lines 91-110), parameterized by the outcome of the inner
pipeline (`_handle_request_with_auto_exception_handling`, which either
returns a formatted response or raises) and by the re-parse of the raw
event (`LexRequest(**event)`, line 101, an external pydantic
constructor): an inner exception with an unparseable event yields the
static minimal response; with a parseable event it is converted by
`handle_exceptions` and formatted for the Lex channel. -/
def handlerAuto (error_message : Option String)
    (innerResult : Except String FormattedResponse)
    (parsedEvent : Option LexRequest) : Except FormatError FormattedResponse :=
  match innerResult with
  | .ok result => .ok result
  | .error exc =>
      match parsedEvent with
      | none => .ok (_create_minimal_error_response error_message)
      | some lex_request =>
          format_for_channel (handle_exceptions exc lex_request error_message) "lex"

/-- A small concrete session state for concrete evaluations. -/
def sessionEx : SessionState :=
  { dialogActionType := "Delegate", intentName := "OrderPizza",
    intentState := "InProgress", sessionAttributes := .nil }

/-- A small concrete request for concrete evaluations. -/
def reqEx : LexRequest := { sessionState := sessionEx, requestAttributes := [] }

/-- An image card with only a title, as in the spec scenario with title
`Choose`. -/
def cardChoose : ImageCardContent :=
  { title := "Choose", subtitle := none, imageUrl := none, buttons := [] }

/-- A response whose only message is the `Choose` image card. -/
def respSingleCard : LexResponse :=
  { sessionState := sessionEx, requestAttributes := [], messages := [.imageCard cardChoose] }

/-- A first-handler response carrying a `callback` request attribute. -/
def firstResp : LexResponse :=
  { sessionState := { sessionEx with intentName := "First" },
    requestAttributes := [("callback", "NextIntent")],
    messages := [.plainText "first"] }

/-- A callback response that itself carries a `callback` request
attribute. -/
def cbRespWithCallback : LexResponse :=
  { sessionState := sessionEx,
    requestAttributes := [("callback", "Again")],
    messages := [.plainText "second"] }

/-- A resolver whose second response still carries a `callback` request
attribute. -/
def resolverWithCallback : String → LexRequest → Except CallError LexResponse :=
  fun _ _ => .ok cbRespWithCallback

/-- A callback response with empty request attributes. -/
def cbRespPlain : LexResponse :=
  { sessionState := sessionEx, requestAttributes := [], messages := [.plainText "second"] }

/-- A resolver returning `cbRespPlain` for every intent. -/
def resolverPlain : String → LexRequest → Except CallError LexResponse :=
  fun _ _ => .ok cbRespPlain

/-- A chain handler that raises a generic exception. -/
def errorHandler : LexRequest → HandlerOutcome := fun _ => .raises "boom"

/-- A chain handler that declines by returning `None`. -/
def declineHandler : LexRequest → HandlerOutcome := fun _ => .declined

/-- A chain handler that raises `IntentNotFoundError`. -/
def infHandler : LexRequest → HandlerOutcome := fun _ => .intentNotFound

/-- An import environment whose resolved handler raises a generic
exception. -/
def envBoom : String → ModuleLookup :=
  fun _ => .moduleWithHandler (fun _ => .raises "boom")

/-- A handler function that returns `cbRespPlain`. -/
def okHandlerFn : LexRequest → HandlerRun := fun _ => .ok cbRespPlain

/-- An import environment that resolves every module to `okHandlerFn`. -/
def envOk : String → ModuleLookup := fun _ => .moduleWithHandler okHandlerFn

/-- An import environment where every import fails. -/
def envMissing : String → ModuleLookup := fun _ => .importError

/-- An image card with subtitle, image url and two buttons. -/
def cardFull : ImageCardContent :=
  { title := "Choose", subtitle := some "Pick one",
    imageUrl := some "https://x/img.png",
    buttons := [{ text := "A", value := "a" }, { text := "B", value := "b" }] }

/-- The text `LexChannel.format_image_card` renders for `cardFull`. -/
def cardFullDegradedText : String :=
  "Choose\nPick one\nImage: https://x/img.png\nButtons: [A -> a] [B -> b]"

/-- A custom-payload dict with a `text` key. -/
def dictWithText : ValueDict := .cons "text" (.vStr "hello") .nil

/-- A custom-payload dict with a `message` key. -/
def dictWithMessage : ValueDict := .cons "message" (.vStr "hey") .nil

/-- A custom-payload dict with neither a `text` nor a `message` key. -/
def dictOther : ValueDict := .cons "k" (.vInt 1) .nil

/-- A response with non-string session-attribute values of every kind:
integer, boolean, and nested dict. -/
def respMixedAttrs : LexResponse :=
  { sessionState :=
      { sessionEx with
        sessionAttributes :=
          .cons "n" (.vInt 7)
            (.cons "flag" (.vBool true)
              (.cons "nested" (.vDict (.cons "k" (.vStr "v") .nil)) .nil)) },
    requestAttributes := [],
    messages := [.plainText "hi"] }

/-- The Python rendering of the nested dict of `respMixedAttrs`. -/
def nestedDictText : String :=
  "\x7b" ++ squote ++ "k" ++ squote ++ ": " ++ squote ++ "v" ++ squote ++ "\x7d"

/-- The wire output `format_for_channel` produces for `respMixedAttrs` on
the default channel. -/
def outMixedAttrs : FormattedResponse :=
  { sessionState :=
      { sessionEx with
        sessionAttributes :=
          .cons "n" (.vStr "7")
            (.cons "flag" (.vStr "True")
              (.cons "nested" (.vStr nestedDictText) .nil)) },
    requestAttributes := [],
    messages := [.plainText "hi"] }

/-- C1: the single-image-card rewrite of `format_for_channel` fires with
the SMS channel selected.  The claim states the rewrite happens only when
the selected channel is the default (Lex) channel and never for SMS; the
source condition (`channel_formatting.py` line 64) checks only the
message count and variant, against its own comment at lines 61-62, so at
channel string `sms` with the single `Choose` image card the plain-text
message is still prepended and the card title still blanked. -/
theorem c1_single_card_rewrite_fires_on_sms :
    _get_channel "sms" = Channel.sms ∧
    format_for_channel respSingleCard "sms" =
      .ok { sessionState := sessionEx, requestAttributes := [],
            messages := [.plainText "Choose",
                         .imageCard { cardChoose with title := " " }] } :=
  ⟨rfl, rfl⟩

/-- C5: an intent name containing an underscore resolves to its verbatim
lower-cased module name, any other name resolves through
`title_to_snake`, both prefixed by `<package>.intents.`; and
`title_to_snake` maps `OrderPizza` to `order_pizza`. -/
theorem c5_intent_name_normalization (intent_name : String) (package_name : Option String) :
    (pyContainsChar intent_name '_' = true →
      module_to_import package_name intent_name =
        (package_name.getD "fulfillment_function") ++ ".intents." ++ pyLower intent_name) ∧
    (pyContainsChar intent_name '_' = false →
      module_to_import package_name intent_name =
        (package_name.getD "fulfillment_function") ++ ".intents." ++
          title_to_snake intent_name) ∧
    title_to_snake "OrderPizza" = "order_pizza" := by
  refine ⟨fun h => ?_, fun h => ?_, by decide⟩ <;>
    simp [module_to_import, file_to_import, h]

/-- C5 witness: `Foo_Bar` resolves to `fulfillment_function.intents.foo_bar`
and `GetWeather` to `fulfillment_function.intents.get_weather`. -/
theorem c5_intent_name_normalization_witness :
    (pyContainsChar "Foo_Bar" '_' = true ∧
      module_to_import none "Foo_Bar" = "fulfillment_function.intents.foo_bar") ∧
    (pyContainsChar "GetWeather" '_' = false ∧
      module_to_import none "GetWeather" = "fulfillment_function.intents.get_weather") :=
  ⟨⟨by decide,
    ((c5_intent_name_normalization "Foo_Bar" none).1 (by decide)).trans (by decide)⟩,
   ⟨by decide,
    ((c5_intent_name_normalization "GetWeather" none).2.1 (by decide)).trans (by decide)⟩⟩

/-- C6 counterexample: on the SMS channel the formatting pipeline appends
the image card unchanged (`_format_image_card` ignores the channel), so
the pipeline output is not the degraded plain text the claim requires;
the degraded rendering exists only in `LexChannel.format_image_card`,
which the pipeline never invokes. -/
theorem c6_claim_counterexample :
    processMessage Channel.sms (.imageCard cardFull) [] [] =
      .ok [.imageCard cardFull] ∧
    LexChannel.format_image_card cardFull = .plainText cardFullDegradedText ∧
    [LexMessage.imageCard cardFull] ≠ [LexChannel.format_image_card cardFull] :=
  ⟨rfl, rfl, by decide⟩

/-- C6 amended: an image card passes through the per-message stage of
`format_for_channel` unchanged on every channel, SMS included; the
title / subtitle / `Image: <url>` / `[<text> -> <value>]` degradation is
implemented by `LexChannel.format_image_card` but is not invoked by the
pipeline. -/
theorem c6_image_card_passthrough :
    (∀ (channel : Channel) (card : ImageCardContent) (opts : List String)
        (acc : List LexMessage),
      processMessage channel (.imageCard card) opts acc = .ok (acc ++ [.imageCard card])) ∧
    LexChannel.format_image_card cardFull = .plainText cardFullDegradedText :=
  ⟨fun _ _ _ _ => rfl, rfl⟩

/-- C7: a custom payload reaching the channel formatting stage is routed
to `format_custom_payload`; a dict content with a `text` key unwraps to
the stringified value, else a `message` key unwraps to the stringified
value, else the content is re-wrapped as a custom payload with the
stringified content; non-dict content is also re-wrapped stringified. -/
theorem c7_custom_payload_unwrap (es : ValueDict) (content : Value) :
    LexChannel.format_message (.customPayload content) =
      LexChannel.format_custom_payload content ∧
    (∀ v, es.lookup "text" = some v →
      LexChannel.format_custom_payload (.vDict es) = .raw (pyStr v)) ∧
    (es.lookup "text" = none → ∀ v, es.lookup "message" = some v →
      LexChannel.format_custom_payload (.vDict es) = .raw (pyStr v)) ∧
    (es.lookup "text" = none → es.lookup "message" = none →
      LexChannel.format_custom_payload (.vDict es) =
        .msg (.customPayload (.vStr (pyStr (.vDict es))))) ∧
    (∀ s, LexChannel.format_custom_payload (.vStr s) =
      .msg (.customPayload (.vStr (pyStr (.vStr s))))) := by
  refine ⟨rfl, fun v h => ?_, fun h1 v h2 => ?_, fun h1 h2 => ?_, fun s => rfl⟩ <;>
    simp [LexChannel.format_custom_payload, *]

/-- C7 witness: concrete dicts with a `text` key, a `message` key, and
neither. -/
theorem c7_custom_payload_unwrap_witness :
    (dictWithText.lookup "text" = some (.vStr "hello") ∧
      LexChannel.format_custom_payload (.vDict dictWithText) = .raw "hello") ∧
    (dictWithMessage.lookup "text" = none ∧
      dictWithMessage.lookup "message" = some (.vStr "hey") ∧
      LexChannel.format_custom_payload (.vDict dictWithMessage) = .raw "hey") ∧
    (dictOther.lookup "text" = none ∧ dictOther.lookup "message" = none ∧
      LexChannel.format_custom_payload (.vDict dictOther) =
        .msg (.customPayload (.vStr (pyStr (.vDict dictOther))))) :=
  ⟨⟨rfl,
    (c7_custom_payload_unwrap dictWithText (.vDict dictWithText)).2.1 (.vStr "hello") rfl⟩,
   ⟨rfl, rfl,
    (c7_custom_payload_unwrap dictWithMessage (.vDict dictWithMessage)).2.2.1
      rfl (.vStr "hey") rfl⟩,
   ⟨rfl, rfl,
    (c7_custom_payload_unwrap dictOther (.vDict dictOther)).2.2.2.1 rfl rfl⟩⟩

/-- C10: channel selection is total: the lower-cased name selects SMS for
`sms` and Lex for `lex`, and every unrecognized name silently selects
the default Lex channel. -/
theorem c10_channel_selection_total (channelString : String) :
    (pyLower channelString = "sms" → _get_channel channelString = Channel.sms) ∧
    (pyLower channelString = "lex" → _get_channel channelString = Channel.lex) ∧
    (pyLower channelString ≠ "sms" → pyLower channelString ≠ "lex" →
      _get_channel channelString = Channel.lex) := by
  refine ⟨fun h => ?_, fun h => ?_, fun h1 h2 => ?_⟩
  · simp [_get_channel, channelsList, List.lookup, h]
  · simp [_get_channel, channelsList, List.lookup, h]
  · have e1 : (pyLower channelString == "sms") = false := beq_eq_false_iff_ne.mpr h1
    have e2 : (pyLower channelString == "lex") = false := beq_eq_false_iff_ne.mpr h2
    simp [_get_channel, channelsList, List.lookup, e1, e2]

/-- C10 witness: `SMS` selects the SMS channel case-insensitively and the
unrecognized name `whatsapp` selects the default Lex channel. -/
theorem c10_channel_selection_total_witness :
    (pyLower "SMS" = "sms" ∧ _get_channel "SMS" = Channel.sms) ∧
    (pyLower "whatsapp" ≠ "sms" ∧ pyLower "whatsapp" ≠ "lex" ∧
      _get_channel "whatsapp" = Channel.lex) :=
  ⟨⟨by decide, (c10_channel_selection_total "SMS").1 (by decide)⟩,
   ⟨by decide, by decide,
    (c10_channel_selection_total "whatsapp").2.2 (by decide) (by decide)⟩⟩

/-- Popping a key from a request-attributes mapping removes it: a lookup
for the popped key afterwards finds nothing. -/
theorem lookup_eraseAttr (attrs : List (String × String)) (key : String) :
    (eraseAttr attrs key).lookup key = none := by
  induction attrs with
  | nil => rfl
  | cons kv rest ih =>
      by_cases h : kv.1 = key
      · simpa [eraseAttr, List.filter_cons, h] using ih
      · have hb : (kv.1 != key) = true := by simp [h]
        have hk : (key == kv.1) = false := beq_eq_false_iff_ne.mpr (Ne.symm h)
        simpa [eraseAttr, List.filter_cons, hb, List.lookup, hk] using ih

/-- C2 counterexample: the final response of the callback block is the
second response itself, whose request attributes the orchestrator does
not touch; with a resolver whose second response carries a `callback`
request attribute, the key is present in the final request attributes,
so the claim that it is absent from the final request attributes is
false. -/
theorem c2_claim_counterexample :
    firstResp.requestAttributes.lookup "callback" = some "NextIntent" ∧
    (applyCallback resolverWithCallback reqEx firstResp).map
        (fun p => p.1.requestAttributes.lookup "callback") = .ok (some "Again") :=
  ⟨rfl, rfl⟩

/-- C2 amended: when the first response carries a `callback` request
attribute and the second invocation returns a response, the callback key
is removed from the request attributes passed to the second invocation
(which also carries the first response session state), the final
response messages are the first response messages followed by the second
response messages, the final session state is the second response state,
and the final request attributes are those of the second response,
untouched by the orchestrator. -/
theorem c2_callback_redispatch
    (resolver : String → LexRequest → Except CallError LexResponse)
    (lex_payload : LexRequest) (response second : LexResponse) (callbackName : String)
    (hcb : response.requestAttributes.lookup "callback" = some callbackName)
    (hres : resolver callbackName (callbackRequest lex_payload response) = .ok second) :
    (callbackRequest lex_payload response).requestAttributes.lookup "callback" = none ∧
    applyCallback resolver lex_payload response =
      .ok ({ second with messages := response.messages ++ second.messages },
           { callbackRequest lex_payload response with
             sessionState := second.sessionState }) := by
  refine ⟨lookup_eraseAttr response.requestAttributes "callback", ?_⟩
  have hres2 : resolver callbackName
      { lex_payload with
        sessionState := response.sessionState,
        requestAttributes := eraseAttr response.requestAttributes "callback" } =
      .ok second := hres
  simp [applyCallback, hcb, hres2, callbackRequest]

/-- C2 amended witness: concrete first response with a callback and a
resolver returning a plain second response. -/
theorem c2_callback_redispatch_witness :
    firstResp.requestAttributes.lookup "callback" = some "NextIntent" ∧
    resolverPlain "NextIntent" (callbackRequest reqEx firstResp) = .ok cbRespPlain ∧
    ((callbackRequest reqEx firstResp).requestAttributes.lookup "callback" = none ∧
      applyCallback resolverPlain reqEx firstResp =
        .ok ({ cbRespPlain with messages := firstResp.messages ++ cbRespPlain.messages },
             { callbackRequest reqEx firstResp with
               sessionState := cbRespPlain.sessionState })) :=
  ⟨rfl, rfl,
   c2_callback_redispatch resolverPlain reqEx firstResp cbRespPlain "NextIntent" rfl rfl⟩

/-- C3 counterexample: an exception raised by the last (here, only)
handler of the chain does not propagate; the chain result is the same
`noHandler` outcome as if the handler had declined, so the exception is
treated as a decline, contrary to the claim. -/
theorem c3_claim_counterexample :
    runHandlerChain [errorHandler] reqEx = ChainResult.noHandler ∧
    runHandlerChain [errorHandler] reqEx = runHandlerChain [declineHandler] reqEx :=
  ⟨rfl, rfl⟩

/-- C3 amended: `IntentNotFoundError` from a handler aborts the chain
immediately; any other exception from any handler — the last included —
is treated exactly like a decline; a response stops the chain; and when
every handler declines or fails, `_main_handler` raises the no-handler
error, which its outer exception layer converts into the
`handle_exceptions` fallback response. -/
theorem c3_handler_chain_exception_policy (h : LexRequest → HandlerOutcome)
    (rest : List (LexRequest → HandlerOutcome)) (req : LexRequest) :
    (h req = .intentNotFound → runHandlerChain (h :: rest) req = .intentNotFound) ∧
    (∀ exc, h req = .raises exc →
      runHandlerChain (h :: rest) req = runHandlerChain rest req) ∧
    (h req = .declined → runHandlerChain (h :: rest) req = runHandlerChain rest req) ∧
    (∀ r, h req = .ok r → runHandlerChain (h :: rest) req = .found r) ∧
    (∀ (resolver : String → LexRequest → Except CallError LexResponse)
        (handlers : List (LexRequest → HandlerOutcome)),
      runHandlerChain handlers req = .noHandler →
      _main_handler_response resolver handlers req =
        .response (handle_exceptions "Unable to find handler for intent" req none)) := by
  refine ⟨fun hh => ?_, fun exc hh => ?_, fun hh => ?_, fun r hh => ?_,
    fun resolver handlers hh => ?_⟩
  · simp [runHandlerChain, hh]
  · simp [runHandlerChain, hh]
  · simp [runHandlerChain, hh]
  · simp [runHandlerChain, hh]
  · simp [_main_handler_response, hh]

/-- C3 amended witness: a chain aborting on `IntentNotFoundError`, a
chain treating a generic exception as a decline, and an exhausted chain
converted to the fallback response. -/
theorem c3_handler_chain_exception_policy_witness :
    (infHandler reqEx = HandlerOutcome.intentNotFound ∧
      runHandlerChain [infHandler, declineHandler] reqEx = ChainResult.intentNotFound) ∧
    (errorHandler reqEx = HandlerOutcome.raises "boom" ∧
      runHandlerChain [errorHandler, declineHandler] reqEx =
        runHandlerChain [declineHandler] reqEx) ∧
    (runHandlerChain [declineHandler] reqEx = ChainResult.noHandler ∧
      _main_handler_response resolverPlain [declineHandler] reqEx =
        .response (handle_exceptions "Unable to find handler for intent" reqEx none)) :=
  ⟨⟨rfl, (c3_handler_chain_exception_policy infHandler [declineHandler] reqEx).1 rfl⟩,
   ⟨rfl,
    (c3_handler_chain_exception_policy errorHandler [declineHandler] reqEx).2.1 "boom" rfl⟩,
   ⟨rfl,
    (c3_handler_chain_exception_policy declineHandler [] reqEx).2.2.2.2
      resolverPlain [declineHandler] rfl⟩⟩

/-- C4 counterexample: a generic exception raised by a resolved handler
does not propagate out of `call_handler_for_file`; the outermost
`except Exception` of the source converts it into the
`handle_exceptions` fallback response and returns normally, so the claim
that handler exceptions propagate unmodified (no conversion at this
layer) is false. -/
theorem c4_claim_counterexample :
    call_handler_for_file envBoom "TestIntent" reqEx none =
      .ok (handle_exceptions "boom" reqEx none) ∧
    (handle_exceptions "boom" reqEx none).messages = [.plainText genericErrorMessage] :=
  ⟨rfl, rfl⟩

/-- C4 amended: `call_handler_for_file` lets only `IntentNotFoundError`
(import failure) escape; a successfully resolved handler result is
returned unchanged; a handler exception, like the missing-handler-function
configuration error, is caught by the outermost exception clause and
converted into the `handle_exceptions` fallback response. -/
theorem c4_resolver_exception_conversion (env : String → ModuleLookup)
    (intent_name : String) (req : LexRequest) (package_name : Option String)
    (handlerFn : LexRequest → HandlerRun) :
    (env (module_to_import package_name intent_name) = .importError →
      call_handler_for_file env intent_name req package_name = .error .intentNotFound) ∧
    (env (module_to_import package_name intent_name) = .moduleWithHandler handlerFn →
      (∀ r, handlerFn req = .ok r →
        call_handler_for_file env intent_name req package_name = .ok r) ∧
      (∀ exc, handlerFn req = .raises exc →
        call_handler_for_file env intent_name req package_name =
          .ok (handle_exceptions exc req none))) ∧
    (env (module_to_import package_name intent_name) = .moduleWithoutHandler →
      call_handler_for_file env intent_name req package_name =
        .ok (handle_exceptions
          ("Unable to load handler for " ++ module_to_import package_name intent_name)
          req none)) := by
  refine ⟨fun he => ?_, fun he => ⟨fun r hr => ?_, fun exc hr => ?_⟩, fun he => ?_⟩
  · simp [call_handler_for_file, he]
  · simp [call_handler_for_file, he, hr]
  · simp [call_handler_for_file, he, hr]
  · simp [call_handler_for_file, he]

/-- C4 amended witness: an import failure propagating as
`IntentNotFoundError` and a successful handler result returned
unchanged. -/
theorem c4_resolver_exception_conversion_witness :
    (envMissing (module_to_import none "TestIntent") = ModuleLookup.importError ∧
      call_handler_for_file envMissing "TestIntent" reqEx none = .error .intentNotFound) ∧
    (envOk (module_to_import none "TestIntent") = ModuleLookup.moduleWithHandler okHandlerFn ∧
      okHandlerFn reqEx = HandlerRun.ok cbRespPlain ∧
      call_handler_for_file envOk "TestIntent" reqEx none = .ok cbRespPlain) :=
  ⟨⟨rfl,
    (c4_resolver_exception_conversion envMissing "TestIntent" reqEx none okHandlerFn).1 rfl⟩,
   ⟨rfl, rfl,
    ((c4_resolver_exception_conversion envOk "TestIntent" reqEx none okHandlerFn).2.1
      rfl).1 cbRespPlain rfl⟩⟩

/-- A value found in a stringified session-attributes mapping is always a
string value. -/
theorem stringify_lookup_vStr (d : ValueDict) (key : String) (v : Value)
    (h : (_stringify_session_attributes d).lookup key = some v) : ∃ s, v = .vStr s := by
  match d with
  | .nil => simp [_stringify_session_attributes, ValueDict.lookup] at h
  | .cons k v0 rest =>
      simp only [_stringify_session_attributes, ValueDict.lookup] at h
      split at h
      · exact ⟨pyStr v0, (Option.some.inj h).symm⟩
      · exact stringify_lookup_vStr rest key v h

/-- The session attributes of a successful `format_for_channel` output
are exactly the stringified input session attributes. -/
theorem format_for_channel_attrs (response : LexResponse) (channel_string : String)
    (out : FormattedResponse)
    (hout : format_for_channel response channel_string = .ok out) :
    out.sessionState.sessionAttributes =
      _stringify_session_attributes response.sessionState.sessionAttributes := by
  cases hp : processMessages (_get_channel channel_string) response.messages [] [] with
  | error e => simp [format_for_channel, hp] at hout
  | ok formatted =>
      simp [format_for_channel, hp] at hout
      rw [← hout]

/-- C8: every value of the session-attributes mapping of a response
successfully returned by `format_for_channel` is string-typed, whatever
the type of the input value. -/
theorem c8_session_attributes_stringified (response : LexResponse) (channel_string : String)
    (out : FormattedResponse)
    (hout : format_for_channel response channel_string = .ok out)
    (key : String) (v : Value)
    (hkey : out.sessionState.sessionAttributes.lookup key = some v) :
    ∃ s, v = .vStr s := by
  rw [format_for_channel_attrs response channel_string out hout] at hkey
  exact stringify_lookup_vStr response.sessionState.sessionAttributes key v hkey

/-- C8 witness: a response with an integer, a boolean and a nested-dict
session attribute; the formatted output holds only string values. -/
theorem c8_session_attributes_stringified_witness :
    format_for_channel respMixedAttrs "lex" = .ok outMixedAttrs ∧
    outMixedAttrs.sessionState.sessionAttributes.lookup "n" = some (.vStr "7") ∧
    (∃ s, Value.vStr "7" = Value.vStr s) :=
  ⟨rfl, rfl,
   c8_session_attributes_stringified respMixedAttrs "lex" outMixedAttrs rfl
     "n" (.vStr "7") rfl⟩

/-- C9: with automatic exception handling enabled (the default
configuration), an exception escaping the inner pipeline is converted:
when the raw event cannot be re-parsed, the static minimal fallback is
returned directly, bypassing `format_for_channel`; when it can, the
`handle_exceptions` fallback is formatted for the Lex channel and the
result is a well-formed closing response carrying the configured or
generic apology message. -/
theorem c9_top_level_error_containment (exc : String) (error_message : Option String)
    (lex_request : LexRequest) :
    handlerAuto error_message (.error exc) none =
      .ok (_create_minimal_error_response error_message) ∧
    (∃ out, handlerAuto error_message (.error exc) (some lex_request) = .ok out ∧
      out.sessionState.dialogActionType = "Close" ∧
      out.sessionState.intentState = "Failed" ∧
      out.messages = [.plainText (error_message.getD genericErrorMessage)]) :=
  ⟨rfl, ⟨_, rfl, rfl, rfl, rfl⟩⟩
